import Mathlib

/-
  Verification development for the AQI tracking script `aqi_gradio.py`.

  Shallow embedding conventions:
  * Python strings are modelled as lists of Unicode code points (`PyStr`);
    `codes` turns a Lean string literal into such a list, so that the
    constants of the source can be written readably.
  * Python numbers arriving through the extraction backend are floats; the
    values relevant here are integral, so they are modelled as `Int` and
    rendered the way Python renders an integral float (`"180.0"`).
  * Code that can raise returns `Except PyExn _`; a `try/except` block is a
    `match` on that result.
  * The two outbound network effects (the Firecrawl extraction call and the
    LLM chat call) are modelled by passing their outcome in as a parameter.
-/

set_option autoImplicit false

namespace AQI

/-- Python strings, modelled as lists of Unicode code points. -/
abbrev PyStr := List Nat

/-- Code points of a Lean string literal; used to write Python string
constants of the source readably. -/
def codes (s : String) : PyStr := s.data.map Char.toNat

/-- A Python dict carrying the numeric reading fields (`Dict[str, float]`,
with integral values modelled as `Int`). Python dict literals in the source
have pairwise-distinct keys, so an association list is faithful. -/
abbrev Dict := List (PyStr × Int)

/-- ASCII lower-casing of one code point, as `str.lower` acts on ASCII. -/
def lowerCode (n : Nat) : Nat := if 65 ≤ n ∧ n ≤ 90 then n + 32 else n

/-- `s.lower()` -/
def pyLower (s : PyStr) : PyStr := s.map lowerCode

/-- One character of `s.replace(" ", "-")`: a single-character replacement
is a character-wise map. -/
def spaceToHyphen (n : Nat) : Nat := if n = 32 then 45 else n

/-- `s.replace(" ", "-")` -/
def replaceSpace (s : PyStr) : PyStr := s.map spaceToHyphen

/-- `s.lower().replace(" ", "-")`, the normalization the source applies to
each location field. -/
def cleanField (s : PyStr) : PyStr := replaceSpace (pyLower s)

/-- Python truthiness of a string: non-empty strings are truthy. -/
def pyTruthy (s : PyStr) : Bool := !s.isEmpty

/-- `AQIAnalyzer._format_url` (src/aqi_gradio.py lines 43-53), translated
verbatim, including its branch condition
`if not state or state.lower().replace(" ","-"):`. -/
def format_url (country state city : PyStr) : PyStr :=
  let country_clean := cleanField country
  let city_clean := cleanField city
  if (!pyTruthy state) || pyTruthy (cleanField state) then
    codes "https://www.aqi.in/dashboard/" ++ country_clean ++ [47] ++ city_clean
  else
    let state_clean := cleanField state
    codes "https://www.aqi.in/dashboard/" ++ country_clean ++ [47] ++ state_clean
      ++ [47] ++ city_clean

/-- Python exceptions that arise in this script, carrying the text `str(e)`
would show. -/
inductive PyExn where
  | httpError (msg : PyStr)
  | validationError (msg : PyStr)
  | keyError (key : PyStr)
  | unboundLocalError (name : PyStr)
  | other (msg : PyStr)
  deriving DecidableEq, Repr

/-- `str(e)` for the modelled exceptions. `KeyError` renders as the quoted
key; `UnboundLocalError` uses the CPython 3.12 wording. Code point 39 is the
ASCII apostrophe. -/
def strExn : PyExn → PyStr
  | .httpError m => m
  | .validationError m => m
  | .keyError k => [39] ++ k ++ [39]
  | .unboundLocalError n =>
      codes "cannot access local variable " ++ [39] ++ n ++ [39]
        ++ codes " where it is not associated with a value"
  | .other m => m

/-- `d[k]` on a Python dict: the value when the key is present, otherwise a
raised `KeyError`. -/
def dictGet (d : Dict) (k : PyStr) : Except PyExn Int :=
  match d.lookup k with
  | some v => .ok v
  | none => .error (.keyError k)

/-- The raw object returned by `firecrawl.extract` before pydantic
validation: each field required by `AQIResponse` may be present or missing. -/
structure RawResp where
  success : Option Bool
  data : Option Dict
  status : Option PyStr
  expiresAt : Option PyStr
  deriving DecidableEq, Repr

/-- Outcome of the outbound `firecrawl.extract` call: either the call raises
(network/transport error) or it returns a raw response object. -/
inductive ExtractOutcome where
  | raises (msg : PyStr)
  | returns (resp : RawResp)
  deriving DecidableEq, Repr

/-- The validated `AQIResponse` pydantic model (src lines 15-19). -/
structure AQIResponse where
  success : Bool
  data : Dict
  status : PyStr
  expiresAt : PyStr
  deriving DecidableEq, Repr

/-- `AQIResponse(**resp)`: pydantic validation of the envelope. Any missing
required field raises a `ValidationError`. -/
def parseAQIResponse (r : RawResp) : Except PyExn AQIResponse :=
  match r.success, r.data, r.status, r.expiresAt with
  | some s, some d, some st, some ex => .ok ⟨s, d, st, ex⟩
  | _, _, _, _ => .error (.validationError (codes "validation error for AQIResponse"))

/-- The body of the `try:` block of `AQIAnalyzer.fetch_aqi_data`
(src lines 58-75): format the URL, perform the extraction call, validate the
envelope, and raise `requests.HTTPError` when `success` is false. -/
def fetchTry (city state country : PyStr) (outcome : ExtractOutcome) :
    Except PyExn (Dict × PyStr) :=
  let url := format_url country state city
  let info_msg := codes "Accessing URL: " ++ url
  match outcome with
  | .raises msg => .error (.other msg)
  | .returns resp =>
    match parseAQIResponse resp with
    | .error e => .error e
    | .ok aqi_response =>
      if aqi_response.success = false then
        .error (.httpError (codes "Failed to fetch AQI Data: " ++ aqi_response.status))
      else
        .ok (aqi_response.data, info_msg)

/-- The fallback dict of the `except` handler (src lines 79-87), with its
keys exactly as the source spells them: the first key is `"api"`. -/
def fallbackReading : Dict :=
  [(codes "api", 0), (codes "temperature", 0), (codes "humidity", 0),
   (codes "wind_speed", 0), (codes "pm25", 0), (codes "pm10", 0), (codes "co", 0)]

/-- `AQIAnalyzer.fetch_aqi_data` (src lines 56-87): the `try:` body with the
`except Exception` handler that converts any raised exception into the
fallback reading plus an error message. The result stays in `Except` so that
"never raises past its boundary" is a provable statement, not a typing
artifact. -/
def fetch_aqi_data (city state country : PyStr) (outcome : ExtractOutcome) :
    Except PyExn (Dict × PyStr) :=
  match fetchTry city state country outcome with
  | .ok v => .ok v
  | .error e => .ok (fallbackReading, codes "Error Fetching AQI Data: " ++ strExn e)

/-- The `UserInput` dataclass (src lines 30-36). In `analyze_conditions` the
`medical_conditions` slot is always filled with the form string, so it is
modelled as `PyStr`. -/
structure UserInput where
  city : PyStr
  state : PyStr
  country : PyStr
  medical_conditions : PyStr
  planned_activity : PyStr
  deriving DecidableEq, Repr

/-- How a Python f-string renders one of the reading values: the values are
floats, and an integral float prints with a trailing `.0`. -/
def pyFloatStr (i : Int) : PyStr := codes (toString i) ++ codes ".0"

/-- `HealthRecommendationAgent._create_prompt` (src lines 100-112). The
f-string evaluates its interpolations left to right, so the dict accesses
happen in the order aqi, pm25, pm10, co, temperature, humidity, co; the
final slot, labelled `Wind Speed`, reads `aqi_data["co"]` in the source. -/
def create_prompt (aqi_data : Dict) (user_input : UserInput) :
    Except PyExn PyStr :=
  match dictGet aqi_data (codes "aqi") with
  | .error e => .error e
  | .ok aqi =>
  match dictGet aqi_data (codes "pm25") with
  | .error e => .error e
  | .ok pm25 =>
  match dictGet aqi_data (codes "pm10") with
  | .error e => .error e
  | .ok pm10 =>
  match dictGet aqi_data (codes "co") with
  | .error e => .error e
  | .ok co_level =>
  match dictGet aqi_data (codes "temperature") with
  | .error e => .error e
  | .ok temperature =>
  match dictGet aqi_data (codes "humidity") with
  | .error e => .error e
  | .ok humidity =>
  match dictGet aqi_data (codes "co") with
  | .error e => .error e
  | .ok wind_slot =>
  .ok (codes "\n        Based on the following air quality condition in "
    ++ user_input.city ++ codes ", " ++ user_input.state ++ codes ", "
    ++ user_input.country
    ++ codes ":\n        - Overall AQI: " ++ pyFloatStr aqi
    ++ codes "\n        - PM2.5 Level: " ++ pyFloatStr pm25 ++ codes " ¬µg/m¬≥"
    ++ codes "\n        - PM10 Level: " ++ pyFloatStr pm10 ++ codes " ¬µg/m¬≥"
    ++ codes "\n        - CO Level: " ++ pyFloatStr co_level ++ codes " ppb"
    ++ codes "\n        \n        Weather Conditions:"
    ++ codes "\n        - Temperature: " ++ pyFloatStr temperature ++ codes "¬∞C"
    ++ codes "\n        - Humidity: " ++ pyFloatStr humidity ++ codes "%"
    ++ codes "\n        - Wind Speed: " ++ pyFloatStr wind_slot ++ codes " ppb"
    ++ codes "\n    ")

/-- `HealthRecommendationAgent.get_recommendation` (src lines 114-118). Its
first statement is `prompt = self._create_prompt(prompt)`: the right-hand
side reads the local variable `prompt` before any assignment to it, so every
call raises `UnboundLocalError` and `self.agent.run` is never reached. -/
def get_recommendation (_aqi_data : Dict) (_user_input : UserInput) :
    Except PyExn PyStr :=
  .error (.unboundLocalError (codes "prompt"))

/-- A value of the display dict passed to `json.dumps`: the AQI entry is a
bare float, the others are formatted strings. -/
inductive JVal where
  | num (i : Int)
  | str (s : PyStr)
  deriving DecidableEq, Repr

/-- JSON rendering of one value; code point 34 is the double quote. The
display strings of this script need no JSON escaping. -/
def jvalStr : JVal → PyStr
  | .num i => pyFloatStr i
  | .str s => [34] ++ s ++ [34]

/-- The entry lines of `json.dumps(..., indent=2)`; code point 44 is the
comma and 10 the newline. -/
def jsonEntries : List (PyStr × JVal) → PyStr
  | [] => []
  | [(k, v)] => codes "\n  " ++ [34] ++ k ++ [34] ++ codes ": " ++ jvalStr v
  | (k, v) :: rest =>
      codes "\n  " ++ [34] ++ k ++ [34] ++ codes ": " ++ jvalStr v ++ [44]
        ++ jsonEntries rest

/-- `json.dumps(d, indent=2)` for the display dict; code points 123 and 125
are the braces. -/
def jsonDumps (entries : List (PyStr × JVal)) : PyStr :=
  [123] ++ jsonEntries entries ++ [10, 125]

/-- The fixed cautionary note of src lines 157-165. -/
def warningText : PyStr :=
  codes "\n        Note: The data shown may not match real-time values on the website.\n        This could be due to:\n        - Cached data in Firecrawl\n        - Rate Limiting\n        - Website updates not being captured\n        \n        Consider refreshing or checking the website directly for real-time values\n        "

/-- The body of the `try:` block of `analyze_conditions` (src lines 122-167):
build the user input, fetch the reading, format the display JSON (each
`aqi_data[...]` access below is evaluated, in source order, while building
the dict literal and may raise `KeyError`), obtain the recommendation, and
assemble the success tuple. -/
def analyzeTry (city state country medical_condition planned_activity : PyStr)
    (outcome : ExtractOutcome) : Except PyExn (PyStr × PyStr × PyStr × PyStr) :=
  let user_input : UserInput :=
    ⟨city, state, country, medical_condition, planned_activity⟩
  match fetch_aqi_data user_input.city user_input.state user_input.country outcome with
  | .error e => .error e
  | .ok (aqi_data, info_msg) =>
  match dictGet aqi_data (codes "aqi") with
  | .error e => .error e
  | .ok v_aqi =>
  match dictGet aqi_data (codes "pm25") with
  | .error e => .error e
  | .ok v_pm25 =>
  match dictGet aqi_data (codes "pm10") with
  | .error e => .error e
  | .ok v_pm10 =>
  match dictGet aqi_data (codes "co") with
  | .error e => .error e
  | .ok v_co =>
  match dictGet aqi_data (codes "temperature") with
  | .error e => .error e
  | .ok v_temp =>
  match dictGet aqi_data (codes "humidity") with
  | .error e => .error e
  | .ok v_hum =>
  match dictGet aqi_data (codes "wind_speed") with
  | .error e => .error e
  | .ok v_wind =>
  let aqi_json := jsonDumps
    [(codes "Air Quality Index (AQI): ", .num v_aqi),
     (codes "PM2.5: ", .str (pyFloatStr v_pm25 ++ codes " ¬µg/m¬≥")),
     (codes "PM10: ", .str (pyFloatStr v_pm10 ++ codes " ¬µg/m¬≥")),
     (codes "Carbon Monoxide (CO): ", .str (pyFloatStr v_co ++ codes " ppb")),
     (codes "Temperature", .str (pyFloatStr v_temp ++ codes "¬∞C")),
     (codes "Humidity", .str (pyFloatStr v_hum ++ codes "%")),
     (codes "Wind Speed", .str (pyFloatStr v_wind ++ codes " km/h"))]
  match get_recommendation aqi_data user_input with
  | .error e => .error e
  | .ok recommendations =>
  .ok (aqi_json, recommendations, info_msg, warningText)

/-- `analyze_conditions` (src lines 120-171): the `try:` body with the
top-level `except Exception` handler returning the uniform failure tuple. -/
def analyze_conditions
    (city state country medical_condition planned_activity : PyStr)
    (outcome : ExtractOutcome) : PyStr × PyStr × PyStr × PyStr :=
  match analyzeTry city state country medical_condition planned_activity outcome with
  | .ok v => v
  | .error e =>
      ([], codes "Analysis Failed", codes "Error Occured: " ++ strExn e, [])

/-- Whether `sub` is a leading segment of `s` (`==` on code points). -/
def leadsCodes : PyStr → PyStr → Bool
  | [], _ => true
  | _ :: _, [] => false
  | a :: as, b :: bs => a == b && leadsCodes as bs

/-- Python `sub in s`: substring containment on code points. -/
def containsCodes (sub : PyStr) : PyStr → Bool
  | [] => sub.isEmpty
  | c :: rest => leadsCodes sub (c :: rest) || containsCodes sub rest

/-! ### Helper lemmas about the URL formatter -/

/-- Field normalization is a single character-wise map. -/
theorem cleanField_map (s : PyStr) :
    cleanField s = s.map (fun n => spaceToHyphen (lowerCode n)) := by
  simp [cleanField, replaceSpace, pyLower, List.map_map, Function.comp]

/-- Normalizing one code point twice is the same as normalizing it once. -/
theorem cleanCode_idem (n : Nat) :
    spaceToHyphen (lowerCode (spaceToHyphen (lowerCode n)))
      = spaceToHyphen (lowerCode n) := by
  unfold lowerCode spaceToHyphen
  split_ifs <;> omega

/-- The per-character normalization, composed with itself, is itself. -/
theorem cleanFun_idem :
    (fun n => spaceToHyphen (lowerCode n)) ∘ (fun n => spaceToHyphen (lowerCode n))
      = fun n => spaceToHyphen (lowerCode n) := by
  funext n
  exact cleanCode_idem n

/-- Field normalization is idempotent. -/
theorem cleanField_idem (s : PyStr) : cleanField (cleanField s) = cleanField s := by
  rw [cleanField_map (cleanField s), cleanField_map s, List.map_map, cleanFun_idem]

/-- A normalized code point is neither a space nor an upper-case ASCII
letter. -/
theorem cleanCode_normal (n : Nat) :
    spaceToHyphen (lowerCode n) ≠ 32
      ∧ ¬(65 ≤ spaceToHyphen (lowerCode n) ∧ spaceToHyphen (lowerCode n) ≤ 90) := by
  unfold lowerCode spaceToHyphen
  split_ifs <;> omega

/-- Every code point of a normalized field is neither a space nor an
upper-case ASCII letter. -/
theorem cleanField_all_normal (x : PyStr) :
    ((cleanField x).all fun n => decide (n ≠ 32 ∧ ¬(65 ≤ n ∧ n ≤ 90))) = true := by
  rw [cleanField_map, List.all_eq_true]
  intro n hn
  rw [List.mem_map] at hn
  obtain ⟨m, _, rfl⟩ := hn
  have h := cleanCode_normal m
  simp only [decide_eq_true_eq]
  omega

/-- The branch condition of `_format_url` is true for every state string, so
the function always returns the two-segment URL and ignores the state. -/
theorem format_url_eq (c s t : PyStr) :
    format_url c s t
      = codes "https://www.aqi.in/dashboard/" ++ cleanField c ++ [47] ++ cleanField t := by
  unfold format_url
  cases s with
  | nil => simp [pyTruthy]
  | cons a as => simp [pyTruthy, cleanField, replaceSpace, pyLower]

/-! ### Claim theorems for the URL formatter -/

/-- C1: the claim states that `format_url` returns the three-segment URL
`base/country/state/city` whenever the state is non-blank. Evaluating the
code at the failing input (country India, state Maharashtra, city Mumbai)
shows it returns the two-segment URL without the state: the branch condition
`not state or state.lower().replace(" ","-")` is truthy for every state, so
the three-segment return is dead code. -/
theorem format_url_drops_nonblank_state :
    format_url (codes "india") (codes "maharashtra") (codes "mumbai")
      = codes "https://www.aqi.in/dashboard/india/mumbai" := by decide

/-- C7: every code point of the URL returned by `format_url` is neither a
space nor an upper-case ASCII letter (so each path segment is lower-cased
with spaces replaced by hyphens), and applying `format_url` to
already-normalized country and city fields, with any state, yields the same
URL as the unnormalized inputs. -/
theorem format_url_normalized (c s s' t : PyStr) :
    ((format_url c s t).all fun n => decide (n ≠ 32 ∧ ¬(65 ≤ n ∧ n ≤ 90))) = true
    ∧ format_url (cleanField c) s' (cleanField t) = format_url c s t := by
  refine ⟨?_, ?_⟩
  · rw [format_url_eq]
    simp only [List.all_append, Bool.and_eq_true]
    exact ⟨⟨⟨by decide, cleanField_all_normal c⟩, by decide⟩, cleanField_all_normal t⟩
  · rw [format_url_eq, format_url_eq, cleanField_idem, cleanField_idem]

/-- C9: `format_url` is a total pure string transform: for every input,
including empty and blank fields, it is defined and equal to a closed-form
concatenation; the embedding has no failure case because every operation of
the source (lower-casing, replacement, formatting) is total, and it performs
no effect. -/
theorem format_url_total (c s t : PyStr) :
    format_url c s t
      = codes "https://www.aqi.in/dashboard/" ++ cleanField c ++ [47] ++ cleanField t :=
  format_url_eq c s t

/-! ### Claim theorems for the extraction client -/

/-- A concrete failing backend outcome: the envelope is well-formed but
reports `success: false`. -/
def failEnvelope : RawResp :=
  { success := some false, data := some [],
    status := some (codes "rate limited"), expiresAt := some (codes "soon") }

/-- C2: the claim states that on a failure the returned reading has all
seven fields aqi, temperature, humidity, wind_speed, pm25, pm10, co present
and zeroed. Evaluating the code on a `success: false` envelope shows the
fallback reading is returned with a non-empty descriptive message, but its
first key is spelled `api`, so the field `aqi` is absent. -/
theorem fetch_fallback_lacks_aqi :
    fetch_aqi_data (codes "Delhi") [] (codes "India") (.returns failEnvelope)
      = .ok (fallbackReading,
          codes "Error Fetching AQI Data: Failed to fetch AQI Data: rate limited")
    ∧ fallbackReading.lookup (codes "aqi") = none
    ∧ fallbackReading.lookup (codes "api") = some 0
    ∧ fallbackReading.lookup (codes "wind_speed") = some 0 := by
  exact ⟨rfl, rfl, rfl, rfl⟩

/-- C8: for every location and every outcome of the outbound extraction
call — a raised transport error, a malformed envelope, a non-success
envelope, or a success — `fetch_aqi_data` returns a (reading, message)
pair and never propagates an exception. -/
theorem fetch_aqi_data_never_raises (city state country : PyStr)
    (o : ExtractOutcome) :
    ∃ reading msg, fetch_aqi_data city state country o = .ok (reading, msg) := by
  unfold fetch_aqi_data
  cases fetchTry city state country o with
  | ok v => exact ⟨v.1, v.2, rfl⟩
  | error e => exact ⟨fallbackReading, codes "Error Fetching AQI Data: " ++ strExn e, rfl⟩

/-! ### Claim theorems for the orchestration function -/

/-- The try-body of the orchestration always ends in an exception: either a
`dictGet` raises `KeyError`, or `get_recommendation` raises
`UnboundLocalError`. -/
theorem analyzeTry_errors (city state country med act : PyStr)
    (o : ExtractOutcome) :
    ∃ e, analyzeTry city state country med act o = .error e := by
  rcases hf : fetch_aqi_data city state country o with e | ⟨d, info⟩
  · exact ⟨e, by simp only [analyzeTry, hf]⟩
  · rcases h1 : dictGet d (codes "aqi") with e | v1
    · exact ⟨e, by simp only [analyzeTry, hf, h1]⟩
    · rcases h2 : dictGet d (codes "pm25") with e | v2
      · exact ⟨e, by simp only [analyzeTry, hf, h1, h2]⟩
      · rcases h3 : dictGet d (codes "pm10") with e | v3
        · exact ⟨e, by simp only [analyzeTry, hf, h1, h2, h3]⟩
        · rcases h4 : dictGet d (codes "co") with e | v4
          · exact ⟨e, by simp only [analyzeTry, hf, h1, h2, h3, h4]⟩
          · rcases h5 : dictGet d (codes "temperature") with e | v5
            · exact ⟨e, by simp only [analyzeTry, hf, h1, h2, h3, h4, h5]⟩
            · rcases h6 : dictGet d (codes "humidity") with e | v6
              · exact ⟨e, by simp only [analyzeTry, hf, h1, h2, h3, h4, h5, h6]⟩
              · rcases h7 : dictGet d (codes "wind_speed") with e | v7
                · exact ⟨e, by simp only [analyzeTry, hf, h1, h2, h3, h4, h5, h6, h7]⟩
                · exact ⟨.unboundLocalError (codes "prompt"),
                    by simp only [analyzeTry, hf, h1, h2, h3, h4, h5, h6, h7,
                      get_recommendation]⟩

/-- C3: whenever the try-body of `analyze_conditions` raises an exception,
the function returns exactly the four-tuple of an empty summary, the fixed
marker `Analysis Failed`, the error description, and an empty warning. -/
theorem analyze_conditions_failure_contract
    (city state country med act : PyStr) (o : ExtractOutcome) (e : PyExn)
    (h : analyzeTry city state country med act o = .error e) :
    analyze_conditions city state country med act o
      = ([], codes "Analysis Failed", codes "Error Occured: " ++ strExn e, []) := by
  unfold analyze_conditions
  rw [h]

/-- Witness for C3 at a concrete input: the extraction call raises, the
fallback reading lacks the `aqi` key, and the display step raises
`KeyError`. -/
theorem analyze_conditions_failure_contract_witness :
    analyze_conditions (codes "Delhi") [] (codes "India") [] (codes "yoga")
        (.raises (codes "connection refused"))
      = ([], codes "Analysis Failed",
         codes "Error Occured: " ++ strExn (.keyError (codes "aqi")), []) :=
  analyze_conditions_failure_contract (codes "Delhi") [] (codes "India") []
    (codes "yoga") (.raises (codes "connection refused"))
    (.keyError (codes "aqi")) rfl

/-- C10: for every input and every backend outcome, `analyze_conditions`
returns the uniform failure four-tuple; the success tuple is unreachable,
because on the success path `get_recommendation` raises `UnboundLocalError`
reading its unassigned local `prompt`, and on the fetch-failure path the
fallback reading lacks the `aqi` key (spelled `api`), so display formatting
raises `KeyError`. -/
theorem analyze_conditions_success_unreachable
    (city state country med act : PyStr) (o : ExtractOutcome) :
    ∃ e : PyExn,
      analyze_conditions city state country med act o
        = ([], codes "Analysis Failed", codes "Error Occured: " ++ strExn e, []) := by
  obtain ⟨e, he⟩ := analyzeTry_errors city state country med act o
  refine ⟨e, ?_⟩
  unfold analyze_conditions
  rw [he]

/-! ### Claim theorems for the prompt builder and agent client -/

/-- The reading of the end-to-end scenario of the spec. -/
def delhiReading : Dict :=
  [(codes "aqi", 180), (codes "temperature", 28), (codes "humidity", 40),
   (codes "wind_speed", 10), (codes "pm25", 90), (codes "pm10", 140),
   (codes "co", 5)]

/-- The user context of the end-to-end scenario of the spec. -/
def delhiUser : UserInput :=
  { city := codes "Delhi", state := codes "", country := codes "India",
    medical_conditions := codes "asthma",
    planned_activity := codes "outdoor yoga session" }

set_option maxRecDepth 100000 in
/-- C4: the claim states the rendered prompt contains the location, the AQI
and PM2.5 values, and the planned-activity and medical-condition text.
Evaluating the template at the scenario input shows it contains Delhi,
India, 180 and 90, but neither the activity text nor the medical-condition
text: the template never interpolates those two fields. -/
theorem delhi_prompt_contents :
    ∃ p, create_prompt delhiReading delhiUser = .ok p
      ∧ containsCodes (codes "Delhi") p = true
      ∧ containsCodes (codes "India") p = true
      ∧ containsCodes (codes "180") p = true
      ∧ containsCodes (codes "90") p = true
      ∧ containsCodes (codes "outdoor yoga session") p = false
      ∧ containsCodes (codes "asthma") p = false :=
  ⟨_, rfl, by decide, by decide, by decide, by decide, by decide, by decide⟩

set_option maxRecDepth 100000 in
/-- C5: the claim states the prompt interpolates all seven reading fields,
in particular the wind_speed value. Evaluating the template at a reading
with wind_speed 10 and co 5 shows the Wind Speed line renders the co value
(5.0 ppb) and the wind_speed value 10 appears nowhere in the prompt. -/
theorem wind_speed_not_interpolated :
    ∃ p, create_prompt delhiReading delhiUser = .ok p
      ∧ containsCodes (codes "- Wind Speed: 5.0 ppb") p = true
      ∧ containsCodes (codes "10.0") p = false :=
  ⟨_, rfl, by decide, by decide⟩

/-- C6: the claim states `get_recommendation` sends the prompt rendered by
`_create_prompt` to the chat call and returns its content verbatim.
Evaluating the code at the scenario input shows it instead raises
`UnboundLocalError` on its first statement, before any prompt is rendered
or any call is made. -/
theorem get_recommendation_always_raises :
    get_recommendation delhiReading delhiUser
      = .error (.unboundLocalError (codes "prompt")) := rfl

end AQI
